import Mathlib

/-!
Shallow embedding of the experiment-simulation engine of this repository
(`app.py` and `app_sim2.py`).

Conventions of the embedding:
* Python floats are modeled as exact rationals (`ℚ`).  Every numeric constant
  in the source is a short decimal, and all properties proved here
  (inequalities, clamps, frame conditions, counts) are robust to the tiny
  rounding differences between binary floats and exact rationals; clamps land
  exactly on the decimal bounds in both semantics.
* Python ints are modeled as `ℤ` (token arithmetic) or `ℕ` (counts, indices).
* `random.random()` / `random.uniform(...)` draws are passed in as explicit
  rational parameters, bounded by hypotheses where the source bounds them.
* Display-only strings (result notes, quant snippets, reason sentences) and
  the Streamlit UI layer are presentation, not engine logic; each omission is
  marked by a comment at the definition that drops it.
-/

namespace App

/-- Assumption risk types of `app.py` (the `type` field of an assumption). -/
inductive AType where
  | desirability
  | feasibility
  | viability
deriving DecidableEq

/-- Assumption record of `app.py` (`IDEAS[...]["assumptions"]` entries). -/
structure Assumption where
  id : String
  text : String
  type : AType
deriving DecidableEq

/-- Experiment menu keys of `app.py` (`EXPERIMENTS` dict keys). -/
inductive ExpKey where
  | landing
  | concierge
  | wizard
  | preorder
  | expert
  | benchmark
  | adsplit
  | diary
deriving DecidableEq

/-- Token cost of each experiment (`EXPERIMENTS[ek]["cost"]` in `app.py`). -/
def cost : ExpKey → Int
  | .landing => 3
  | .concierge => 4
  | .wizard => 4
  | .preorder => 5
  | .expert => 2
  | .benchmark => 3
  | .adsplit => 4
  | .diary => 3

/-- Duration in days of each experiment (`EXPERIMENTS[ek]["days"]`). -/
def days : ExpKey → Int
  | .landing => 3
  | .concierge => 7
  | .wizard => 7
  | .preorder => 10
  | .expert => 2
  | .benchmark => 5
  | .adsplit => 5
  | .diary => 7

/-- Assumption types each experiment is good for (`EXPERIMENTS[ek]["fit"]`).
The `label` and `desc` strings are display text and are omitted. -/
def fitTypes : ExpKey → List AType
  | .landing => [.desirability, .viability]
  | .concierge => [.desirability, .feasibility]
  | .wizard => [.feasibility, .desirability]
  | .preorder => [.viability, .desirability]
  | .expert => [.feasibility, .viability]
  | .benchmark => [.feasibility, .desirability]
  | .adsplit => [.desirability]
  | .diary => [.desirability]

/-- Assumptions of the `home_comfort` idea card in `app.py`. -/
def homeAssumptions : List Assumption :=
  [ { id := "A1", text := "Homeowners perceive uneven room temps as a top 3 comfort issue.", type := .desirability },
    { id := "A2", text := "20 percent or more of target homeowners will try a no-tools one room fix kit.", type := .desirability },
    { id := "A3", text := "A single room kit can deliver a noticeable comfort delta in 48 hours.", type := .feasibility },
    { id := "A4", text := "BLE sensors + app can estimate room temp and airflow accurately enough.", type := .feasibility },
    { id := "A5", text := "Installed cost of starter kit at most 129 dollars with 60 percent or more gross margin.", type := .viability },
    { id := "A6", text := "Homeowners will accept a subscription (5 to 9 dollars a month) for seasonal tuning.", type := .viability },
    { id := "A7", text := "Return rate for the starter kit stays under 10 percent.", type := .viability },
    { id := "A8", text := "Install instructions can be done self-serve without pro help.", type := .feasibility } ]

/-- Hidden ground-truth risk of the `home_comfort` idea (`IDEAS[...]["truth"]`):
3 = very risky, 2 = moderate, 1 = low. -/
def homeTruth : List (String × Nat) :=
  [("A1", 2), ("A2", 3), ("A3", 2), ("A4", 1), ("A5", 2), ("A6", 3), ("A7", 2), ("A8", 1)]

/-- Lookup of `get_assumption` in `app.py`: linear scan over the session's
assumptions; an id that is not found yields a fabricated default record
`{"id": aid, "text": aid, "type": "desirability"}`. -/
def get_assumption (l : List Assumption) (aid : String) : Assumption :=
  match l.find? (fun a => a.id == aid) with
  | some a => a
  | none => { id := aid, text := aid, type := .desirability }

/-- Ground-truth lookup `st.session_state.ground_truth.get(aid, 2)`. -/
def riskOf (gt : List (String × Nat)) (aid : String) : Nat :=
  match gt.find? (fun p => p.1 == aid) with
  | some p => p.2
  | none => 2

/-- Base success chance `{3: 0.35, 2: 0.55, 1: 0.75}[risk]` of
`simulate_result`.  The wildcard arm keeps the function total; in Python any
other key raises `KeyError`, and the truth tables only hold values 1..3. -/
def baseSuccess (risk : Nat) : ℚ :=
  if risk = 1 then 0.75 else if risk = 2 then 0.55 else if risk = 3 then 0.35 else 0.55

/-- Success probability of `simulate_result` in `app.py`:
`p = min(base_success + 0.25 * fit, 0.95)` where `fit` is the 0/1 indicator. -/
def pSuccessApp (risk : Nat) (fit : Nat) : ℚ :=
  min (baseSuccess risk + 0.25 * (fit : ℚ)) 0.95

/-- Signal strength classes of `app.py` results. -/
inductive Signal where
  | strong
  | weak
  | noSignal
deriving DecidableEq

/-- Result record returned by `simulate_result` in `app.py`.  The `note` and
`quant` fields of the Python dict are rendered display strings (built by
`synth_result_note` / `quant_for_experiment`) and are omitted. -/
structure AResult where
  aid : String
  experiment : ExpKey
  success : Bool
  signal : Signal
  cost : Int
  days : Int
  assumption_type : AType
  fit : Nat
deriving DecidableEq

/-- Outcome synthesizer `simulate_result(aid, ek, rng)` of `app.py`.
`u1` models the `rng.random()` draw deciding success and `u2` the
`rng.random()` draw deciding strong-vs-weak (only consumed on a fitting
success in Python; the further draws feeding `quant_for_experiment` shape
display text only and are omitted). -/
def simulate_result (l : List Assumption) (gt : List (String × Nat))
    (aid : String) (ek : ExpKey) (u1 u2 : ℚ) : AResult :=
  let a := get_assumption l aid
  let risk := riskOf gt aid
  let fit : Nat := if a.type ∈ fitTypes ek then 1 else 0
  let p := pSuccessApp risk fit
  let success := decide (u1 < p)
  let signal :=
    if success then (if fit ≠ 0 ∧ u2 < 0.8 then Signal.strong else Signal.weak)
    else Signal.noSignal
  { aid := aid, experiment := ek, success := success, signal := signal,
    cost := cost ek, days := days ek, assumption_type := a.type, fit := fit }

/-- Cumulative validation progress by assumption type
(`st.session_state.validation_progress`). -/
structure VProg where
  desirability : Nat
  feasibility : Nat
  viability : Nat
deriving DecidableEq

/-- Round indices 1..3 of `app.py`. -/
inductive Rnd where
  | one
  | two
  | three
deriving DecidableEq

/-- Session state slice of `app.py` relevant to the engine.  Navigation
fields (`stage`, `idea_key`) drive only the UI router and are omitted. -/
structure AppState where
  assumptions : List Assumption
  ranked : List Assumption
  ground_truth : List (String × Nat)
  tokens_total : Int
  tokens_spent : Int
  portfolio1 : List (String × ExpKey)
  portfolio2 : List (String × ExpKey)
  portfolio3 : List (String × ExpKey)
  results1 : List AResult
  results2 : List AResult
  results3 : List AResult
  validation : VProg
deriving DecidableEq

/-- Portfolio of a given round (`st.session_state.portfolio[round]`). -/
def portfolioOf (s : AppState) : Rnd → List (String × ExpKey)
  | .one => s.portfolio1
  | .two => s.portfolio2
  | .three => s.portfolio3

/-- Replace the portfolio of one round. -/
def setPortfolio (s : AppState) (r : Rnd) (l : List (String × ExpKey)) : AppState :=
  match r with
  | .one => { s with portfolio1 := l }
  | .two => { s with portfolio2 := l }
  | .three => { s with portfolio3 := l }

/-- Results of a given round (`st.session_state.results[round]`). -/
def resultsOf (s : AppState) : Rnd → List AResult
  | .one => s.results1
  | .two => s.results2
  | .three => s.results3

/-- Replace the results of one round. -/
def setResults (s : AppState) (r : Rnd) (l : List AResult) : AppState :=
  match r with
  | .one => { s with results1 := l }
  | .two => { s with results2 := l }
  | .three => { s with results3 := l }

/-- Token cost of one scheduled entry (`EXPERIMENTS[ek]["cost"]`). -/
def entryCost (e : String × ExpKey) : Int := cost e.2

/-- Total scheduled cost of a portfolio list. -/
def portfolioCost (l : List (String × ExpKey)) : Int := (l.map entryCost).sum

/-- Function `planned_spend()` of `app.py`: tokens spent in completed rounds
plus tokens scheduled in all rounds. -/
def planned_spend (s : AppState) : Int :=
  s.tokens_spent + (portfolioCost s.portfolio1 + portfolioCost s.portfolio2 + portfolioCost s.portfolio3)

/-- Function `pool_remaining()` of `app.py`. -/
def pool_remaining (s : AppState) : Int := s.tokens_total - planned_spend s

/-- Admission of the add-button handler in `screen_round_select`:
the entry is appended only when `planned_spend() + cost <= tokens_total`,
otherwise the state is unchanged (a warning is shown). -/
def addPick (s : AppState) (r : Rnd) (aid : String) (ek : ExpKey) : AppState :=
  if planned_spend s + cost ek ≤ s.tokens_total then
    setPortfolio s r (portfolioOf s r ++ [(aid, ek)])
  else s

/-- Remove-button handler in `screen_round_select`:
`st.session_state.portfolio[round_idx].pop(idx)`.  The UI only produces
indices of listed entries; on an out-of-range index `eraseIdx` keeps the list
unchanged where Python would raise. -/
def removePick (s : AppState) (r : Rnd) (idx : Nat) : AppState :=
  setPortfolio s r ((portfolioOf s r).eraseIdx idx)

/-- Increment of `validation_progress[type]` on a successful result. -/
def bumpV (v : VProg) : AType → VProg
  | .desirability => { v with desirability := v.desirability + 1 }
  | .feasibility => { v with feasibility := v.feasibility + 1 }
  | .viability => { v with viability := v.viability + 1 }

/-- Round execution `run_round(round_idx)` of `app.py`.  The Python loop
appends one result per scheduled entry, adds each entry's cost to
`tokens_spent`, and bumps `validation_progress` on success; afterwards the
round's results are stored and its portfolio is cleared.  The loop's three
independent per-entry updates are modeled componentwise.  `us i` models the
rng draws consumed by entry `i`. -/
def runRound (us : Nat → ℚ × ℚ) (s : AppState) (r : Rnd) : AppState :=
  let entries := portfolioOf s r
  let rs := entries.enum.map
    (fun p => simulate_result s.assumptions s.ground_truth p.2.1 p.2.2 (us p.1).1 (us p.1).2)
  let s1 := setResults (setPortfolio s r []) r rs
  { s1 with
    tokens_spent := s.tokens_spent + portfolioCost entries,
    validation := rs.foldl (fun v res => if res.success then bumpV v res.assumption_type else v) s.validation }

/-- Learner operations that mutate the ledger or portfolios in `app.py`. -/
inductive AppOp where
  | add (r : Rnd) (aid : String) (ek : ExpKey)
  | remove (r : Rnd) (idx : Nat)
  | run (r : Rnd) (us : Nat → ℚ × ℚ)

/-- One learner operation applied to the session state. -/
def appStep (s : AppState) : AppOp → AppState
  | .add r aid ek => addPick s r aid ek
  | .remove r idx => removePick s r idx
  | .run r us => runRound us s r

/-- Fresh session state after `set_idea` / `init_state` in `app.py`:
a 30-token pool, nothing spent, empty portfolios and results. -/
def initState (assumptions ranked : List Assumption) (gt : List (String × Nat)) : AppState :=
  { assumptions := assumptions, ranked := ranked, ground_truth := gt,
    tokens_total := 30, tokens_spent := 0,
    portfolio1 := [], portfolio2 := [], portfolio3 := [],
    results1 := [], results2 := [], results3 := [],
    validation := { desirability := 0, feasibility := 0, viability := 0 } }

/-- Target cost per learning point (`TARGET_CPLP` in `app.py`). -/
def TARGET_CPLP : ℚ := 3.0

/-- Target learning points across the whole sim (`TARGET_LEARNING_POINTS`). -/
def TARGET_LEARNING_POINTS : Int := 10

/-- Python 3 `round` into `int`.  Mathlib's `round` is round-half-up while
Python uses round-half-to-even; they agree except at exact halves, and every
property proved here (integer bounds of a value known to lie in an interval)
holds under either convention. -/
def pyRound (x : ℚ) : Int := round x

/-- Python `int()` on a float: truncation toward zero. -/
def pyInt (x : ℚ) : Int := if 0 ≤ x then ⌊x⌋ else -⌊-x⌋

/-- All realized results across the three rounds, in round order
(the `for rnd in (1, 2, 3) for r in results[rnd]` comprehensions). -/
def flatResults (s : AppState) : List AResult :=
  s.results1 ++ s.results2 ++ s.results3

/-- Sum of `r["cost"]` over all results (`resource_efficiency`). -/
def total_cost (s : AppState) : Int := ((flatResults s).map (fun r => r.cost)).sum

/-- Per-round `max([r["days"] ...] or [0])`: tests run in parallel within a
round, so round time is the longest test. -/
def maxDays (rs : List AResult) : Int := (rs.map (fun r => r.days)).foldr max 0

/-- Total elapsed time: sum over rounds of the longest test in the round. -/
def total_time (s : AppState) : Int :=
  maxDays s.results1 + maxDays s.results2 + maxDays s.results3

/-- Number of results whose signal is strong. -/
def strongCount (s : AppState) : Nat :=
  (flatResults s).countP (fun r => r.signal == Signal.strong)

/-- Number of results whose signal is weak. -/
def weakCount (s : AppState) : Nat :=
  (flatResults s).countP (fun r => r.signal == Signal.weak)

/-- Learning points `strong * 2 + weak * 1` of `resource_efficiency`. -/
def learning_points (s : AppState) : Int :=
  (strongCount s : Int) * 2 + (weakCount s : Int) * 1

/-- Tuple returned by `resource_efficiency()` in `app.py`.  `actual_cplp` is
`none` where Python returns `float("inf")` (the zero-learning branch). -/
structure EffOut where
  score : Int
  total_cost : Int
  total_time : Int
  learning_points : Int
  actual_cplp : Option ℚ
  efficiency_pct : ℚ
  strong : Int
  weak : Int
deriving DecidableEq

/-- Function `resource_efficiency()` of `app.py`: cost-per-learning-point
efficiency mapped to a 0..25 score, with a guarded zero-learning branch. -/
def resource_efficiency (s : AppState) : EffOut :=
  if learning_points s ≤ 0 then
    { score := 0, total_cost := total_cost s, total_time := total_time s,
      learning_points := learning_points s, actual_cplp := none,
      efficiency_pct := 0, strong := strongCount s, weak := weakCount s }
  else
    let actual : ℚ := (total_cost s : ℚ) / (learning_points s : ℚ)
    let pct : ℚ := min 100 (100 * TARGET_CPLP / actual)
    { score := pyRound (25 * (pct / 100)), total_cost := total_cost s,
      total_time := total_time s, learning_points := learning_points s,
      actual_cplp := some actual, efficiency_pct := pct,
      strong := strongCount s, weak := weakCount s }

/-- Position weight of `risk_prioritization_score`: 2.0 for ranks 1..3,
1.5 for ranks 4..6, 1.0 beyond. -/
def weight_for_pos (pos : Nat) : ℚ :=
  if pos ≤ 3 then 2.0 else if pos ≤ 6 then 1.5 else 1.0

/-- Insertion into a list sorted by `le` (stable, earlier element first on
ties), used to model Python's `sorted`. -/
def insertLe {α : Type} (le : α → α → Bool) (x : α) : List α → List α
  | [] => [x]
  | y :: ys => if le x y then x :: y :: ys else y :: insertLe le x ys

/-- Stable insertion sort modeling Python's `sorted`. -/
def sortLe {α : Type} (le : α → α → Bool) : List α → List α
  | [] => []
  | x :: xs => insertLe le x (sortLe le xs)

/-- Comparison induced by the Python sort key `lambda kv: (-kv[1], kv[0])`:
higher risk first, ties broken by id. -/
def truthLe (p q : String × Nat) : Bool :=
  if p.2 = q.2 then !(decide (q.1 < p.1)) else decide (q.2 < p.2)

/-- Ground-truth ranking list `truth_sorted` of `risk_prioritization_score`. -/
def truthSorted (gt : List (String × Nat)) : List (String × Nat) :=
  sortLe truthLe gt

/-- Ground-truth rank `truth_rank.get(aid, N)` (1-based; `N` default). -/
def truthRank (gt : List (String × Nat)) (N : Nat) (aid : String) : Nat :=
  match (truthSorted gt).findIdx? (fun p => p.1 == aid) with
  | some i => i + 1
  | none => N

/-- Base points of `risk_prioritization_score`: 3 if the ranked position is
exact, 2 if off by one, 1 if off by two, else 0. -/
def basePoints (dist : Nat) : ℚ :=
  if dist = 0 then 3 else if dist = 1 then 2 else if dist = 2 then 1 else 0

/-- Main loop of `risk_prioritization_score`: accumulates
`(achieved_points, max_points)` over ranked positions `i, i+1, ...`.
The exact/near match counters feed display text only and are omitted. -/
def rpLoop (tr : String → Nat) : Nat → List String → ℚ × ℚ
  | _, [] => (0, 0)
  | i, aid :: rest =>
    let j := tr aid
    let base := basePoints ((i : Int) - (j : Int)).natAbs
    let w := weight_for_pos i
    let prev := rpLoop tr (i + 1) rest
    (base * w + prev.1, 3 * w + prev.2)

/-- Function `risk_prioritization_score()` of `app.py`, returning the 0..25
category score together with `(achieved_points, max_points)`. -/
def risk_prioritization_score (s : AppState) : Int × ℚ × ℚ :=
  let ranked_ids := s.ranked.map (fun a => a.id)
  let N := ranked_ids.length
  let out := rpLoop (truthRank s.ground_truth N) 1 ranked_ids
  let score : Int := if 0 < out.2 then pyRound (25 * (out.1 / out.2)) else 0
  (score, out.1, out.2)

/-- Experiment Fit category of `compute_score`: `int(25 * good/total)` over
completed tests whose experiment type matches the assumption type. -/
def exp_fit_score (s : AppState) : Int :=
  let flat := flatResults s
  let total_results := flat.length
  let good_results := flat.countP (fun r => decide (r.assumption_type ∈ fitTypes r.experiment))
  if total_results ≠ 0 then pyInt (25 * ((good_results : ℚ) / (total_results : ℚ))) else 0

/-- Learning Outcome category of `compute_score`: `min(15, learning_points)`. -/
def learn_score (s : AppState) : Int :=
  min 15 (resource_efficiency s).learning_points

/-- Distinct risk types among the learner's top-5 ranked assumptions
(`len(set(...))` over `get_assumption(aid)["type"]`). -/
def diversity (s : AppState) : Nat :=
  ((((s.ranked.map (fun a => a.id)).take 5).map
      (fun aid => (get_assumption s.assumptions aid).type)).dedup).length

/-- Assumption Quality category of `compute_score`: `6 + (4 if diversity >= 2 else 0)`. -/
def qual_score (s : AppState) : Int :=
  6 + (if 2 ≤ diversity s then 4 else 0)

/-- Category breakdown returned by `compute_score` in `app.py`. -/
structure Breakdown where
  assumption_quality : Int
  risk_prioritization : Int
  experiment_fit : Int
  resource_efficiency : Int
  learning_outcome : Int
deriving DecidableEq

/-- Output of `compute_score` in `app.py`.  The per-category reason strings
are deterministic template fills of the same numbers (display text) and are
omitted. -/
structure ScoreOut where
  total : Int
  breakdown : Breakdown
  true_top3 : List String
  user_top3 : List String
deriving DecidableEq

/-- Scoring engine `compute_score()` of `app.py`: five clamped category
scores and a grand total clamped to 100. -/
def compute_score (s : AppState) : ScoreOut :=
  let rp := (risk_prioritization_score s).1
  let ef := exp_fit_score s
  let eff := (resource_efficiency s).score
  let learn := learn_score s
  let qual := qual_score s
  let total_score : Int := min 100 (rp + ef + eff + learn + qual)
  { total := total_score,
    breakdown :=
      { assumption_quality := qual, risk_prioritization := rp,
        experiment_fit := ef, resource_efficiency := eff,
        learning_outcome := learn },
    true_top3 := ((truthSorted s.ground_truth).take 3).map (fun p => p.1),
    user_top3 := (s.ranked.map (fun a => a.id)).take 3 }

end App

namespace Sim2

/-- Risk kinds of `app_sim2.py` assumptions: Desirability, Feasibility,
Viability. -/
inductive SRisk where
  | D
  | F
  | V
deriving DecidableEq

/-- Hidden truth levels of `app_sim2.py` assumptions. -/
inductive Truth where
  | H
  | M
  | L
deriving DecidableEq

/-- Assumption record of `app_sim2.py` (`IDEA_CARDS[...]["assumptions"]`
entries); the `text` display string is omitted. -/
structure SAssumption where
  id : String
  tags : List String
  truth : Truth
  risk : SRisk
deriving DecidableEq

/-- Experiment menu keys of `app_sim2.py` (`EXPERIMENTS` dict keys). -/
inductive SExp where
  | landingPage
  | conciergeTrial
  | prototypeDemo
  | expertInterview
  | preOrder
  | dataComparison
  | adSplit
  | diaryLog
deriving DecidableEq

/-- Token cost of each `app_sim2.py` experiment. -/
def cost : SExp → Int
  | .landingPage => 2
  | .conciergeTrial => 3
  | .prototypeDemo => 3
  | .expertInterview => 1
  | .preOrder => 4
  | .dataComparison => 3
  | .adSplit => 2
  | .diaryLog => 3

/-- Tags each `app_sim2.py` experiment fits best (`EXPERIMENTS[e]["fits"]`);
the `desc` and `example` display strings are omitted. -/
def fits : SExp → List String
  | .landingPage => ["demand", "wtp", "positioning", "pricing"]
  | .conciergeTrial => ["comfort", "time_to_value", "quality", "ux"]
  | .prototypeDemo => ["feasibility", "install_time", "compat", "noise", "onboarding"]
  | .expertInterview => ["training", "ops", "warranty", "rebates", "channel", "trust"]
  | .preOrder => ["wtp", "pricing", "subscription"]
  | .dataComparison => ["comfort", "evidence", "callbacks", "unit_econ", "payback"]
  | .adSplit => ["positioning", "demand"]
  | .diaryLog => ["comfort", "time_to_value"]

/-- Round keys `"r1"`, `"r2"`, `"r3"` of `app_sim2.py`. -/
inductive RKey where
  | r1
  | r2
  | r3
deriving DecidableEq

/-- Per-round token caps (`TOKENS = {"r1": 8, "r2": 4, "r3": 4}`). -/
def cap : RKey → Int
  | .r1 => 8
  | .r2 => 4
  | .r3 => 4

/-- Function `clamp(x, lo, hi) = max(lo, min(hi, x))` of `app_sim2.py`. -/
def clamp (x lo hi : ℚ) : ℚ := max lo (min hi x)

/-- Tag overlap used by `fit_score`:
`len(set(exp["fits"]).intersection(assumption_tags))`. -/
def overlap (e : SExp) (tags : List String) : Nat :=
  ((fits e).dedup.filter (fun t => tags.contains t)).length

/-- Function `fit_score(exp_name, assumption_tags)` of `app_sim2.py`:
`min(1.0, 0.35 + 0.22 * overlap)`. -/
def fit_score (e : SExp) (tags : List String) : ℚ :=
  min 1 (0.35 + 0.22 * (overlap e tags : ℚ))

/-- Function `truth_bias(truth)` of `app_sim2.py`: H hardest, L easiest. -/
def truth_bias : Truth → ℚ
  | .H => 0.35
  | .M => 0.55
  | .L => 0.75

/-- Success probability computed by `simulate_result` in `app_sim2.py`:
`clamp(0.12 + 0.65*fit*base + random.uniform(-0.08, 0.08), 0.05, 0.97)`.
`noise` models the bounded uniform draw. -/
def p_success (e : SExp) (a : SAssumption) (noise : ℚ) : ℚ :=
  clamp (0.12 + 0.65 * fit_score e a.tags * truth_bias a.truth + noise) 0.05 0.97

/-- Verdict classes appearing in `app_sim2.py` results. -/
inductive Verdict where
  | positive
  | mixed
  | weak
  | negative
deriving DecidableEq

/-- Result record of `app_sim2.py`.  The engine-level content is the
verdict; the `metric` and `note` fields are display strings built from
further bounded random draws and are omitted.  Round-level theorems
quantify over an arbitrary synthesizer, whose probability core is
`p_success` above. -/
structure SResult where
  verdict : Verdict
deriving DecidableEq

/-- Learner statuses set after a round (`Validated / Weakened / Still Risky
/ Invalidated`). -/
inductive Status where
  | validated
  | weakened
  | stillRisky
  | invalidated
deriving DecidableEq

/-- Per-round slice of `app_sim2.py` session state
(`S["r1"] / S["r2"] / S["r3"]`); dicts are association lists keyed by
assumption id, in insertion order. -/
structure Sim2Round where
  picked : List (String × SExp)
  results : List (String × SResult)
  statuses : List (String × Status)
  tokens : Int
deriving DecidableEq

/-- Score object stored under `S["score"]` by `compute_scoring`. -/
structure Sim2Score where
  total : Int
  clarity : Int
  prioritization : Int
  fit : Int
  efficiency : Int
  learning : Int
deriving DecidableEq

/-- Session state slice of `app_sim2.py` relevant to the engine.  The
`stage`, `idea_key` and `learning` form fields drive only the UI and are
omitted; `S["reasons"]` holds deterministic renderings of the score numbers
(display text) and is omitted. -/
structure Sim2State where
  r1 : Sim2Round
  r2 : Sim2Round
  r3 : Sim2Round
  ranking_ids : List String
  assumption_status : List (String × Status)
  score : Option Sim2Score
deriving DecidableEq

/-- Round slice of a given key. -/
def roundOf (s : Sim2State) : RKey → Sim2Round
  | .r1 => s.r1
  | .r2 => s.r2
  | .r3 => s.r3

/-- Replace the round slice of a given key. -/
def setRound (s : Sim2State) (k : RKey) (rd : Sim2Round) : Sim2State :=
  match k with
  | .r1 => { s with r1 := rd }
  | .r2 => { s with r2 := rd }
  | .r3 => { s with r3 := rd }

/-- Function `tokens_left(round_key)` of `app_sim2.py`. -/
def tokens_left (s : Sim2State) (k : RKey) : Int :=
  cap k - (roundOf s k).tokens

/-- Function `add_pick(round_key, a_id, exp_name)` of `app_sim2.py`: reject
when the cost would exceed the round cap, otherwise append the pick and
charge the tokens.  The failure message string is display text and omitted. -/
def add_pick (s : Sim2State) (k : RKey) (aid : String) (e : SExp) : Bool × Sim2State :=
  let rd := roundOf s k
  if cap k < rd.tokens + cost e then (false, s)
  else
    (true, setRound s k { rd with picked := rd.picked ++ [(aid, e)], tokens := rd.tokens + cost e })

/-- Loop body of `run_round` in `app_sim2.py`: for each pick in order, a
result is synthesized and stored under the assumption id unless one is
already present (`if a_id not in S[round_key]["results"]`).  `sim`
abstracts `simulate_result(exp_name, a)`. -/
def runPicks (sim : String → SExp → SResult)
    (picked : List (String × SExp)) (results : List (String × SResult)) :
    List (String × SResult) :=
  picked.foldl
    (fun acc p => if (acc.lookup p.1).isSome then acc else acc ++ [(p.1, sim p.1 p.2)])
    results

/-- Function `run_round(round_key)` of `app_sim2.py`. -/
def run_round (sim : String → SExp → SResult) (s : Sim2State) (k : RKey) : Sim2State :=
  let rd := roundOf s k
  setRound s k { rd with results := runPicks sim rd.picked rd.results }

/-- All picks across the three rounds
(`S["r1"]["picked"] + S["r2"]["picked"] + S["r3"]["picked"]`). -/
def allPicks (s : Sim2State) : List (String × SExp) :=
  s.r1.picked ++ s.r2.picked ++ s.r3.picked

/-- Risk-sequence weights of `compute_scoring`
(`weights = {"D": 1.0, "F": 0.6, "V": 0.3}`). -/
def riskWeight : SRisk → ℚ
  | .D => 1.0
  | .F => 0.6
  | .V => 0.3

/-- First index of an element (Python `list.index`; total with default
`length` when absent, which `compute_scoring` guards by membership). -/
def firstIndex (x : SRisk) : List SRisk → Nat
  | [] => 0
  | y :: ys => if y = x then 0 else firstIndex x ys + 1

/-- Point awarded when a learner status is consistent with a verdict
(the `status_points` case analysis of `compute_scoring`). -/
def matchPts (v : Verdict) (stt : Status) : Nat :=
  match v, stt with
  | .positive, .validated => 1
  | .positive, .weakened => 1
  | .negative, .invalidated => 1
  | .negative, .stillRisky => 1
  | .mixed, .weakened => 1
  | .mixed, .stillRisky => 1
  | .weak, .stillRisky => 1
  | _, _ => 0

/-- Accumulator of `status_points(rd)`: picks whose result and status are
both present contribute `(points, count)`; others are skipped. -/
def statusPts (rd : Sim2Round) : Nat × Nat :=
  rd.picked.foldl
    (fun pn p =>
      match rd.results.lookup p.1, rd.statuses.lookup p.1 with
      | some res, some stt => (pn.1 + matchPts res.verdict stt, pn.2 + 1)
      | _, _ => pn)
    (0, 0)

/-- Ratio `pts / max(1, n)` returned by `status_points(rd)`. -/
def status_points (rd : Sim2Round) : ℚ :=
  ((statusPts rd).1 : ℚ) / ((max 1 (statusPts rd).2 : Nat) : ℚ)

/-- Assumption Clarity component of `compute_scoring` (0..1 scale). -/
def clarity (s : Sim2State) : ℚ :=
  let tested_ids := ((allPicks s).map Prod.fst).dedup
  clamp (0.8 + (if 4 ≤ tested_ids.length then 0.1 else 0)) 0 1

/-- Risk Prioritization component of `compute_scoring` (0..1 scale):
average weight of the Round 1 risk sequence plus bonuses for starting with
Desirability and testing Feasibility before Viability. -/
def prioritization (amap : String → SAssumption) (s : Sim2State) : ℚ :=
  let seq := (s.r1.picked.map Prod.fst).map (fun i => (amap i).risk)
  if seq.length = 0 then 0
  else
    let avgw := ((seq.map riskWeight).sum) / (seq.length : ℚ)
    let bonus0 : ℚ := if seq.head? = some SRisk.D then 0.1 else 0
    let bonus : ℚ :=
      if SRisk.V ∈ seq ∧ SRisk.F ∈ seq ∧ firstIndex SRisk.F seq < firstIndex SRisk.V seq then
        bonus0 + 0.1
      else bonus0
    clamp (avgw + bonus) 0 1

/-- Experiment Fit component of `compute_scoring` (0..1 scale): clamped
average of `fit_score` over all picks. -/
def fit_avg (amap : String → SAssumption) (s : Sim2State) : ℚ :=
  let picks := allPicks s
  clamp
    (if picks.length = 0 then 0
     else ((picks.map (fun p => fit_score p.2 ((amap p.1).tags))).sum) / (picks.length : ℚ))
    0 1

/-- Resource Efficiency component of `compute_scoring` (0..1 scale):
staying within the per-round caps plus method diversity. -/
def efficiency (s : Sim2State) : ℚ :=
  let unique_methods := ((allPicks s).map Prod.snd).dedup.length
  let within_caps : ℚ :=
    if s.r1.tokens ≤ cap RKey.r1 ∧ s.r2.tokens ≤ cap RKey.r2 ∧ s.r3.tokens ≤ cap RKey.r3 then 1.0
    else 0.6
  let diversity := clamp ((unique_methods : ℚ) / 4) 0 1
  clamp (0.6 * within_caps + 0.4 * diversity) 0 1

/-- Learning Outcome component of `compute_scoring` (0..1 scale): status
consistency across rounds, re-weighted toward Round 3 when it was played. -/
def learn (s : Sim2State) : ℚ :=
  if s.r3.picked ≠ [] then clamp (0.4 * status_points s.r2 + 0.6 * status_points s.r3) 0 1
  else clamp (0.5 * status_points s.r1 + 0.5 * status_points s.r2) 0 1

/-- Score object computed by `compute_scoring()` in `app_sim2.py`: five
0..100 component scores and their weighted total
(weights 0.30 / 0.25 / 0.25 / 0.10 / 0.10). -/
def scoreObj (amap : String → SAssumption) (s : Sim2State) : Sim2Score :=
  let clarity_score : Int := App.pyInt (100 * clarity s)
  let prioritization_score : Int := App.pyInt (100 * prioritization amap s)
  let fit_score_val : Int := App.pyInt (100 * fit_avg amap s)
  let efficiency_score : Int := App.pyInt (100 * efficiency s)
  let learning_score : Int := App.pyInt (100 * learn s)
  let total : Int := App.pyInt
    (0.30 * (clarity_score : ℚ) + 0.25 * (prioritization_score : ℚ) +
      0.25 * (fit_score_val : ℚ) + 0.10 * (efficiency_score : ℚ) +
      0.10 * (learning_score : ℚ))
  { total := total, clarity := clarity_score, prioritization := prioritization_score,
    fit := fit_score_val, efficiency := efficiency_score, learning := learning_score }

/-- Function `compute_scoring()` of `app_sim2.py`: computes the score object
from the accumulated history and stores it in `S["score"]` (the companion
`S["reasons"]` strings are deterministic renderings of the same numbers and
are omitted). -/
def compute_scoring (amap : String → SAssumption) (s : Sim2State) : Sim2State :=
  { s with score := some (scoreObj amap s) }

end Sim2

/-! Helper lemmas shared by the claim theorems. -/

lemma Sim2.le_clamp (x lo hi : ℚ) : lo ≤ Sim2.clamp x lo hi :=
  le_max_left _ _

lemma Sim2.clamp_le {lo hi : ℚ} (x : ℚ) (h : lo ≤ hi) : Sim2.clamp x lo hi ≤ hi :=
  max_le h (min_le_left _ _)

lemma Sim2.clamp_le_of_le {x lo hi b : ℚ} (h1 : lo ≤ b) (h2 : x ≤ b) :
    Sim2.clamp x lo hi ≤ b :=
  max_le h1 (le_trans (min_le_right _ _) h2)

lemma Sim2.fit_score_lb (e : Sim2.SExp) (tags : List String) :
    0.35 ≤ Sim2.fit_score e tags := by
  unfold Sim2.fit_score
  refine le_min (by norm_num) ?_
  have : (0 : ℚ) ≤ 0.22 * (Sim2.overlap e tags : ℚ) := by positivity
  linarith

lemma Sim2.fit_score_nonneg (e : Sim2.SExp) (tags : List String) :
    0 ≤ Sim2.fit_score e tags :=
  le_trans (by norm_num) (Sim2.fit_score_lb e tags)

lemma Sim2.fit_score_le_one (e : Sim2.SExp) (tags : List String) :
    Sim2.fit_score e tags ≤ 1 :=
  min_le_left _ _

lemma Sim2.truth_bias_nonneg (t : Sim2.Truth) : 0 ≤ Sim2.truth_bias t := by
  cases t <;> norm_num [Sim2.truth_bias]

lemma Sim2.truth_bias_le (t : Sim2.Truth) : Sim2.truth_bias t ≤ 0.75 := by
  cases t <;> norm_num [Sim2.truth_bias]

lemma App.pyInt_nonneg {x : ℚ} (h : 0 ≤ x) : 0 ≤ App.pyInt x := by
  unfold App.pyInt
  rw [if_pos h]
  exact Int.le_floor.2 (by exact_mod_cast h)

lemma App.pyInt_le {x : ℚ} {n : ℤ} (h0 : 0 ≤ x) (h : x ≤ (n : ℚ)) :
    App.pyInt x ≤ n := by
  unfold App.pyInt
  rw [if_pos h0]
  calc ⌊x⌋ ≤ ⌊(n : ℚ)⌋ := Int.floor_mono h
  _ = n := Int.floor_intCast n

lemma App.pyRound_nonneg {x : ℚ} (h : 0 ≤ x) : 0 ≤ App.pyRound x := by
  unfold App.pyRound
  rw [round_eq]
  exact Int.le_floor.2 (by push_cast; linarith)

lemma App.pyRound_le {x : ℚ} {n : ℤ} (h : x ≤ (n : ℚ)) : App.pyRound x ≤ n := by
  unfold App.pyRound
  rw [round_eq]
  have h2 : ⌊x + 1 / 2⌋ < n + 1 :=
    Int.floor_lt.2 (by push_cast; linarith)
  omega

lemma App.resource_efficiency_learning_points (s : App.AppState) :
    (App.resource_efficiency s).learning_points = App.learning_points s := by
  unfold App.resource_efficiency
  split <;> rfl

lemma App.learning_points_nonneg (s : App.AppState) : 0 ≤ App.learning_points s := by
  unfold App.learning_points
  positivity

/-- C1: for every assumption and experiment, the success probability computed
by the outcome synthesizer stays within the configured floor and ceiling —
in `app.py` the base is at least 0.35 and `min(p, 0.95)` caps it, and in
`app_sim2.py` the clamp floor is 0.05 while the pre-clamp value never exceeds
0.6875, so `0.05 ≤ p_success ≤ 0.95` holds in both variants and no 0% or
100% outcome is possible. -/
theorem p_success_within_floor_and_ceiling :
    (∀ risk fit : Nat, 1 ≤ risk → risk ≤ 3 → fit ≤ 1 →
      0.05 ≤ App.pSuccessApp risk fit ∧ App.pSuccessApp risk fit ≤ 0.95) ∧
    (∀ (e : Sim2.SExp) (a : Sim2.SAssumption) (noise : ℚ),
      -0.08 ≤ noise → noise ≤ 0.08 →
      0.05 ≤ Sim2.p_success e a noise ∧ Sim2.p_success e a noise ≤ 0.95) := by
  constructor
  · intro risk fit h1 h3 hf
    interval_cases risk <;> interval_cases fit <;>
      norm_num [App.pSuccessApp, App.baseSuccess]
  · intro e a noise hn1 hn2
    refine ⟨Sim2.le_clamp _ _ _, ?_⟩
    have hf0 := Sim2.fit_score_nonneg e a.tags
    have hf1 := Sim2.fit_score_le_one e a.tags
    have hb0 := Sim2.truth_bias_nonneg a.truth
    have hb1 := Sim2.truth_bias_le a.truth
    have hmul : 0.65 * Sim2.fit_score e a.tags * Sim2.truth_bias a.truth ≤ 0.4875 := by
      nlinarith
    exact Sim2.clamp_le_of_le (by norm_num) (by linarith)

/-- Witness for C1 at concrete inputs: medium risk with no fit in `app.py`,
and a medium-truth demand assumption probed by a landing page with zero noise
in `app_sim2.py`. -/
theorem p_success_within_floor_and_ceiling_witness :
    (0.05 ≤ App.pSuccessApp 2 0 ∧ App.pSuccessApp 2 0 ≤ 0.95) ∧
    (0.05 ≤ Sim2.p_success Sim2.SExp.landingPage
        { id := "A1", tags := ["demand"], truth := Sim2.Truth.M, risk := Sim2.SRisk.D } 0 ∧
      Sim2.p_success Sim2.SExp.landingPage
        { id := "A1", tags := ["demand"], truth := Sim2.Truth.M, risk := Sim2.SRisk.D } 0 ≤ 0.95) :=
  ⟨p_success_within_floor_and_ceiling.1 2 0 (by norm_num) (by norm_num) (by norm_num),
   p_success_within_floor_and_ceiling.2 Sim2.SExp.landingPage
     { id := "A1", tags := ["demand"], truth := Sim2.Truth.M, risk := Sim2.SRisk.D } 0
     (by norm_num) (by norm_num)⟩

/-- C4: the fit function returns a value in [0,1] and is monotonically
non-decreasing in the size of the tag overlap between the experiment's
affinity set and the assumption's tags (`app_sim2.py`), and the 0/1 fit
indicator of `app.py` also stays within [0,1]. -/
theorem fit_in_unit_interval_and_monotone :
    (∀ (e : Sim2.SExp) (tags : List String),
      0 ≤ Sim2.fit_score e tags ∧ Sim2.fit_score e tags ≤ 1) ∧
    (∀ (e : Sim2.SExp) (t1 t2 : List String),
      Sim2.overlap e t1 ≤ Sim2.overlap e t2 →
      Sim2.fit_score e t1 ≤ Sim2.fit_score e t2) ∧
    (∀ (l : List App.Assumption) (gt : List (String × Nat)) (aid : String)
        (ek : App.ExpKey) (u1 u2 : ℚ),
      (App.simulate_result l gt aid ek u1 u2).fit ≤ 1) := by
  refine ⟨fun e tags => ⟨Sim2.fit_score_nonneg e tags, Sim2.fit_score_le_one e tags⟩, ?_, ?_⟩
  · intro e t1 t2 h
    unfold Sim2.fit_score
    refine min_le_min le_rfl ?_
    have : (Sim2.overlap e t1 : ℚ) ≤ (Sim2.overlap e t2 : ℚ) := by exact_mod_cast h
    linarith
  · intro l gt aid ek u1 u2
    simp only [App.simulate_result]
    split <;> simp

/-- Witness for C4's monotonicity at a concrete pair of tag sets. -/
theorem fit_in_unit_interval_and_monotone_witness :
    Sim2.fit_score Sim2.SExp.landingPage [] ≤
      Sim2.fit_score Sim2.SExp.landingPage ["demand"] :=
  fit_in_unit_interval_and_monotone.2.1 Sim2.SExp.landingPage [] ["demand"] (by decide)

/-- C8: in `app.py`, a failed success draw always yields the no-signal
class, a strong signal can only occur on a successful draw of a fitting
experiment, and learning points are 2 per strong signal plus 1 per weak
signal. -/
theorem signal_conditioned_on_success_and_fit :
    (∀ (l : List App.Assumption) (gt : List (String × Nat)) (aid : String)
        (ek : App.ExpKey) (u1 u2 : ℚ),
      ((App.simulate_result l gt aid ek u1 u2).success = false →
        (App.simulate_result l gt aid ek u1 u2).signal = App.Signal.noSignal) ∧
      ((App.simulate_result l gt aid ek u1 u2).signal = App.Signal.strong →
        (App.simulate_result l gt aid ek u1 u2).success = true ∧
        (App.simulate_result l gt aid ek u1 u2).fit = 1 ∧
        (App.get_assumption l aid).type ∈ App.fitTypes ek)) ∧
    (∀ s : App.AppState,
      (App.resource_efficiency s).learning_points =
        2 * (App.strongCount s : Int) + (App.weakCount s : Int)) := by
  constructor
  · intro l gt aid ek u1 u2
    simp only [App.simulate_result]
    cases hdec : decide (u1 < App.pSuccessApp (App.riskOf gt aid)
        (if (App.get_assumption l aid).type ∈ App.fitTypes ek then 1 else 0)) with
    | false =>
      refine ⟨fun _ => by simp, fun h => absurd h (by simp)⟩
    | true =>
      refine ⟨fun h => by simp at h, fun h => ?_⟩
      by_cases hc : (if (App.get_assumption l aid).type ∈ App.fitTypes ek then 1 else 0) ≠ 0
          ∧ u2 < 0.8
      · have hm : (App.get_assumption l aid).type ∈ App.fitTypes ek := by
          rcases hc with ⟨hfit, _⟩
          by_contra hm
          simp [hm] at hfit
        exact ⟨rfl, by simp [hm], hm⟩
      · rw [if_pos rfl, if_neg hc] at h
        exact absurd h (by simp)
  · intro s
    rw [App.resource_efficiency_learning_points]
    unfold App.learning_points
    ring

/-- Witness for C8 at a concrete input: a draw of 0.99 against probability
0.8 fails, so the signal is the no-signal class. -/
theorem signal_conditioned_on_success_and_fit_witness :
    (App.simulate_result App.homeAssumptions App.homeTruth "A1" App.ExpKey.landing
        (99 / 100) 0).signal = App.Signal.noSignal :=
  (signal_conditioned_on_success_and_fit.1 App.homeAssumptions App.homeTruth "A1"
      App.ExpKey.landing (99 / 100) 0).1 (by
    have hr : App.riskOf App.homeTruth "A1" = 2 := by decide
    have ht : (App.get_assumption App.homeAssumptions "A1").type = App.AType.desirability := by
      decide
    simp only [App.simulate_result, hr, ht]
    norm_num [App.fitTypes, App.pSuccessApp, App.baseSuccess, decide_eq_false_iff_not])

/-- C9: when the Resource Efficiency denominator is zero (no learning
points), `resource_efficiency` takes the guarded branch and returns the
defined default — score 0, efficiency 0 and an infinite cost-per-point —
without dividing. -/
theorem degenerate_efficiency_resolves_to_zero (s : App.AppState)
    (h : (App.resource_efficiency s).learning_points ≤ 0) :
    (App.resource_efficiency s).score = 0 ∧
    (App.resource_efficiency s).efficiency_pct = 0 ∧
    (App.resource_efficiency s).actual_cplp = none := by
  rw [App.resource_efficiency_learning_points] at h
  unfold App.resource_efficiency
  rw [if_pos h]
  exact ⟨rfl, rfl, rfl⟩

/-- Witness for C9: a fresh session with no executed results has zero
learning points and scores zero for the category. -/
theorem degenerate_efficiency_resolves_to_zero_witness :
    (App.resource_efficiency (App.initState App.homeAssumptions App.homeAssumptions App.homeTruth)).score = 0 :=
  (degenerate_efficiency_resolves_to_zero
      (App.initState App.homeAssumptions App.homeAssumptions App.homeTruth) (by decide)).1

lemma App.portfolioCost_nil : App.portfolioCost [] = 0 := rfl

lemma App.portfolioCost_cons (e : String × App.ExpKey) (l : List (String × App.ExpKey)) :
    App.portfolioCost (e :: l) = App.entryCost e + App.portfolioCost l := by
  simp [App.portfolioCost]

lemma App.portfolioCost_append_single (l : List (String × App.ExpKey)) (e : String × App.ExpKey) :
    App.portfolioCost (l ++ [e]) = App.portfolioCost l + App.entryCost e := by
  simp [App.portfolioCost]

lemma App.cost_nonneg (ek : App.ExpKey) : 0 ≤ App.cost ek := by
  cases ek <;> simp [App.cost]

lemma App.entryCost_nonneg (e : String × App.ExpKey) : 0 ≤ App.entryCost e :=
  App.cost_nonneg e.2

lemma App.portfolioCost_eraseIdx :
    ∀ (l : List (String × App.ExpKey)) (i : Nat) (h : i < l.length),
      App.portfolioCost (l.eraseIdx i) = App.portfolioCost l - App.entryCost (l.get ⟨i, h⟩)
  | [], i, h => absurd h (by simp)
  | e :: l, 0, _ => by
    simp [List.eraseIdx, App.portfolioCost_cons]
  | e :: l, i + 1, h => by
    have ih := App.portfolioCost_eraseIdx l i (by simpa using h)
    simp only [List.eraseIdx, App.portfolioCost_cons, ih, List.get]
    ring

lemma App.portfolioCost_eraseIdx_le (l : List (String × App.ExpKey)) (i : Nat) :
    App.portfolioCost (l.eraseIdx i) ≤ App.portfolioCost l := by
  by_cases h : i < l.length
  · rw [App.portfolioCost_eraseIdx l i h]
    have := App.entryCost_nonneg (l.get ⟨i, h⟩)
    linarith
  · rw [List.eraseIdx_of_length_le (by omega)]

lemma App.planned_spend_setPortfolio (s : App.AppState) (r : App.Rnd)
    (l : List (String × App.ExpKey)) :
    App.planned_spend (App.setPortfolio s r l) =
      App.planned_spend s - App.portfolioCost (App.portfolioOf s r) + App.portfolioCost l := by
  cases r <;> simp [App.setPortfolio, App.planned_spend, App.portfolioOf] <;> ring

lemma App.tokens_total_setPortfolio (s : App.AppState) (r : App.Rnd)
    (l : List (String × App.ExpKey)) :
    (App.setPortfolio s r l).tokens_total = s.tokens_total := by
  cases r <;> rfl

lemma App.planned_spend_runRound (us : Nat → ℚ × ℚ) (s : App.AppState) (r : App.Rnd) :
    App.planned_spend (App.runRound us s r) = App.planned_spend s := by
  cases r <;>
    simp [App.runRound, App.setResults, App.setPortfolio, App.planned_spend,
      App.portfolioOf, App.portfolioCost_nil] <;>
    ring

lemma App.tokens_total_runRound (us : Nat → ℚ × ℚ) (s : App.AppState) (r : App.Rnd) :
    (App.runRound us s r).tokens_total = s.tokens_total := by
  cases r <;> rfl

lemma App.tokens_total_appStep (s : App.AppState) (op : App.AppOp) :
    (App.appStep s op).tokens_total = s.tokens_total := by
  cases op with
  | add r aid ek =>
    show (App.addPick s r aid ek).tokens_total = s.tokens_total
    unfold App.addPick
    split
    · exact App.tokens_total_setPortfolio s r _
    · rfl
  | remove r idx => exact App.tokens_total_setPortfolio s r _
  | run r us => exact App.tokens_total_runRound us s r

lemma App.planned_spend_appStep_le (s : App.AppState) (op : App.AppOp)
    (hs : App.planned_spend s ≤ s.tokens_total) :
    App.planned_spend (App.appStep s op) ≤ s.tokens_total := by
  cases op with
  | add r aid ek =>
    show App.planned_spend (App.addPick s r aid ek) ≤ s.tokens_total
    unfold App.addPick
    split
    · rw [App.planned_spend_setPortfolio, App.portfolioCost_append_single]
      simp only [App.entryCost]
      omega
    · exact hs
  | remove r idx =>
    show App.planned_spend (App.removePick s r idx) ≤ s.tokens_total
    unfold App.removePick
    rw [App.planned_spend_setPortfolio]
    have := App.portfolioCost_eraseIdx_le (App.portfolioOf s r) idx
    linarith
  | run r us =>
    show App.planned_spend (App.runRound us s r) ≤ s.tokens_total
    rw [App.planned_spend_runRound]
    exact hs

lemma App.invariant_fold :
    ∀ (ops : List App.AppOp) (s : App.AppState),
      App.planned_spend s ≤ s.tokens_total →
      App.planned_spend (ops.foldl App.appStep s) ≤ (ops.foldl App.appStep s).tokens_total
  | [], s, h => h
  | op :: ops, s, h => by
    rw [List.foldl_cons]
    refine App.invariant_fold ops (App.appStep s op) ?_
    rw [App.tokens_total_appStep]
    exact App.planned_spend_appStep_le s op h

lemma Sim2.roundOf_setRound (s : Sim2.Sim2State) (k : Sim2.RKey) (rd : Sim2.Sim2Round) :
    Sim2.roundOf (Sim2.setRound s k rd) k = rd := by
  cases k <;> rfl

lemma Sim2.roundOf_setRound_ne (s : Sim2.Sim2State) (k k2 : Sim2.RKey) (rd : Sim2.Sim2Round)
    (h : k2 ≠ k) : Sim2.roundOf (Sim2.setRound s k rd) k2 = Sim2.roundOf s k2 := by
  cases k <;> cases k2 <;> first | rfl | exact absurd rfl h

/-- C2: a scheduling request whose cost would exceed the budget (the
per-round cap in `app_sim2.py`, the pooled 30-token total in `app.py`) is
rejected with no state change, and the ledger invariant
`committed_cost ≤ total_budget` holds after every operation of any run
started from a fresh session. -/
theorem insufficient_tokens_rejected_state_unchanged :
    (∀ (s : Sim2.Sim2State) (k : Sim2.RKey) (aid : String) (e : Sim2.SExp),
      Sim2.cap k < (Sim2.roundOf s k).tokens + Sim2.cost e →
      Sim2.add_pick s k aid e = (false, s)) ∧
    (∀ (s : Sim2.Sim2State) (k k2 : Sim2.RKey) (aid : String) (e : Sim2.SExp),
      (Sim2.roundOf s k2).tokens ≤ Sim2.cap k2 →
      (Sim2.roundOf (Sim2.add_pick s k aid e).2 k2).tokens ≤ Sim2.cap k2) ∧
    (∀ (s : App.AppState) (r : App.Rnd) (aid : String) (ek : App.ExpKey),
      s.tokens_total < App.planned_spend s + App.cost ek →
      App.addPick s r aid ek = s) ∧
    (∀ (s : App.AppState) (op : App.AppOp),
      App.planned_spend s ≤ s.tokens_total →
      App.planned_spend (App.appStep s op) ≤ (App.appStep s op).tokens_total) ∧
    (∀ (a rk : List App.Assumption) (gt : List (String × Nat)) (ops : List App.AppOp),
      App.planned_spend (ops.foldl App.appStep (App.initState a rk gt)) ≤
        (ops.foldl App.appStep (App.initState a rk gt)).tokens_total) := by
  refine ⟨?_, ?_, ?_, ?_, ?_⟩
  · intro s k aid e h
    unfold Sim2.add_pick
    rw [if_pos h]
  · intro s k k2 aid e h
    simp only [Sim2.add_pick]
    split
    · exact h
    · next hc =>
      by_cases hk : k2 = k
      · subst hk
        rw [Sim2.roundOf_setRound]
        simp only at hc ⊢
        omega
      · rw [Sim2.roundOf_setRound_ne s k k2 _ hk]
        exact h
  · intro s r aid ek h
    unfold App.addPick
    rw [if_neg (by omega)]
  · intro s op h
    rw [App.tokens_total_appStep]
    exact App.planned_spend_appStep_le s op h
  · intro a rk gt ops
    refine App.invariant_fold ops _ ?_
    simp [App.initState, App.planned_spend, App.portfolioCost]

/-- Witness for C2: with 8 tokens already committed in round 1, a concierge
trial costing 3 is rejected and nothing changes; the invariant holds after a
concrete accepted pick from a fresh state. -/
theorem insufficient_tokens_rejected_state_unchanged_witness :
    Sim2.add_pick
        { r1 := { picked := [("A1", Sim2.SExp.preOrder), ("A2", Sim2.SExp.preOrder)],
                  results := [], statuses := [], tokens := 8 },
          r2 := { picked := [], results := [], statuses := [], tokens := 0 },
          r3 := { picked := [], results := [], statuses := [], tokens := 0 },
          ranking_ids := [], assumption_status := [], score := none }
        Sim2.RKey.r1 "A3" Sim2.SExp.conciergeTrial =
      (false,
        { r1 := { picked := [("A1", Sim2.SExp.preOrder), ("A2", Sim2.SExp.preOrder)],
                  results := [], statuses := [], tokens := 8 },
          r2 := { picked := [], results := [], statuses := [], tokens := 0 },
          r3 := { picked := [], results := [], statuses := [], tokens := 0 },
          ranking_ids := [], assumption_status := [], score := none }) ∧
    App.planned_spend
        (App.appStep (App.initState App.homeAssumptions App.homeAssumptions App.homeTruth)
          (App.AppOp.add App.Rnd.one "A1" App.ExpKey.landing)) ≤
      (App.appStep (App.initState App.homeAssumptions App.homeAssumptions App.homeTruth)
          (App.AppOp.add App.Rnd.one "A1" App.ExpKey.landing)).tokens_total :=
  ⟨insufficient_tokens_rejected_state_unchanged.1 _ Sim2.RKey.r1 "A3"
      Sim2.SExp.conciergeTrial (by decide),
   insufficient_tokens_rejected_state_unchanged.2.2.2.1 _
      (App.AppOp.add App.Rnd.one "A1" App.ExpKey.landing) (by decide)⟩

/-- C7: removing a scheduled-but-not-yet-executed portfolio entry in
`app.py` refunds exactly its experiment cost to the remaining pool, and
changes nothing else — no other round's portfolio, no spent counter, no
results, no validation progress. -/
theorem remove_entry_refunds_cost (s : App.AppState) (r : App.Rnd) (idx : Nat)
    (h : idx < (App.portfolioOf s r).length) :
    App.pool_remaining (App.removePick s r idx) =
      App.pool_remaining s + App.cost ((App.portfolioOf s r).get ⟨idx, h⟩).2 ∧
    (App.removePick s r idx).tokens_spent = s.tokens_spent ∧
    (App.removePick s r idx).tokens_total = s.tokens_total ∧
    App.portfolioOf (App.removePick s r idx) r = (App.portfolioOf s r).eraseIdx idx ∧
    (∀ r2, r2 ≠ r → App.portfolioOf (App.removePick s r idx) r2 = App.portfolioOf s r2) ∧
    (App.removePick s r idx).results1 = s.results1 ∧
    (App.removePick s r idx).results2 = s.results2 ∧
    (App.removePick s r idx).results3 = s.results3 ∧
    (App.removePick s r idx).validation = s.validation := by
  unfold App.removePick
  refine ⟨?_, ?_, ?_, ?_, ?_, ?_, ?_, ?_, ?_⟩
  · unfold App.pool_remaining
    rw [App.planned_spend_setPortfolio, App.portfolioCost_eraseIdx _ _ h,
      App.tokens_total_setPortfolio]
    simp only [App.entryCost]
    ring
  · cases r <;> rfl
  · cases r <;> rfl
  · cases r <;> simp [App.setPortfolio, App.portfolioOf]
  · intro r2 hne
    cases r <;> cases r2 <;> first | rfl | exact absurd rfl hne
  · cases r <;> rfl
  · cases r <;> rfl
  · cases r <;> rfl
  · cases r <;> rfl

/-- Witness for C7: removing the single scheduled landing-page test from a
fresh session's round 1 refunds its 3 tokens. -/
theorem remove_entry_refunds_cost_witness :
    App.pool_remaining
        (App.removePick
          (App.appStep (App.initState App.homeAssumptions App.homeAssumptions App.homeTruth)
            (App.AppOp.add App.Rnd.one "A1" App.ExpKey.landing))
          App.Rnd.one 0) =
      App.pool_remaining
          (App.appStep (App.initState App.homeAssumptions App.homeAssumptions App.homeTruth)
            (App.AppOp.add App.Rnd.one "A1" App.ExpKey.landing)) +
        App.cost App.ExpKey.landing :=
  (remove_entry_refunds_cost
      (App.appStep (App.initState App.homeAssumptions App.homeAssumptions App.homeTruth)
        (App.AppOp.add App.Rnd.one "A1" App.ExpKey.landing))
      App.Rnd.one 0 (by decide)).1

lemma App.resultsOf_runRound_length (us : Nat → ℚ × ℚ) (s : App.AppState) (r : App.Rnd) :
    (App.resultsOf (App.runRound us s r) r).length = (App.portfolioOf s r).length := by
  cases r <;>
    simp [App.runRound, App.setResults, App.setPortfolio, App.resultsOf, App.portfolioOf]

lemma Sim2.lookup_isSome_iff {β : Type} (l : List (String × β)) (a : String) :
    (l.lookup a).isSome = true ↔ a ∈ l.map Prod.fst := by
  induction l with
  | nil => simp
  | cons x xs ih =>
    obtain ⟨k, b⟩ := x
    by_cases h : a = k
    · subst h
      simp [List.lookup]
    · simp [List.lookup, beq_false_of_ne h, h, ih]

lemma Sim2.runPicks_keys_mem (sim : String → Sim2.SExp → Sim2.SResult) :
    ∀ (picked : List (String × Sim2.SExp)) (rs : List (String × Sim2.SResult)) (a : String),
      a ∈ (Sim2.runPicks sim picked rs).map Prod.fst ↔
        a ∈ rs.map Prod.fst ∨ a ∈ picked.map Prod.fst
  | [], rs, a => by simp [Sim2.runPicks]
  | p :: ps, rs, a => by
    have step : Sim2.runPicks sim (p :: ps) rs =
        Sim2.runPicks sim ps
          (if (rs.lookup p.1).isSome then rs else rs ++ [(p.1, sim p.1 p.2)]) := by
      simp [Sim2.runPicks]
    rw [step]
    by_cases h : (rs.lookup p.1).isSome = true
    · rw [if_pos h, Sim2.runPicks_keys_mem sim ps rs a]
      have hp : p.1 ∈ rs.map Prod.fst := (Sim2.lookup_isSome_iff rs p.1).1 h
      simp only [List.map_cons, List.mem_cons]
      constructor
      · rintro (h1 | h1)
        · exact Or.inl h1
        · exact Or.inr (Or.inr h1)
      · rintro (h1 | h1 | h1)
        · exact Or.inl h1
        · exact Or.inl (by rw [h1]; exact hp)
        · exact Or.inr h1
    · rw [if_neg h, Sim2.runPicks_keys_mem sim ps _ a]
      simp only [List.map_append, List.mem_append, List.map_cons, List.map_nil,
        List.mem_singleton, List.mem_cons]
      tauto

lemma Sim2.runPicks_keys_nodup (sim : String → Sim2.SExp → Sim2.SResult) :
    ∀ (picked : List (String × Sim2.SExp)) (rs : List (String × Sim2.SResult)),
      (rs.map Prod.fst).Nodup → ((Sim2.runPicks sim picked rs).map Prod.fst).Nodup
  | [], rs, h => by simpa [Sim2.runPicks] using h
  | p :: ps, rs, h => by
    have step : Sim2.runPicks sim (p :: ps) rs =
        Sim2.runPicks sim ps
          (if (rs.lookup p.1).isSome then rs else rs ++ [(p.1, sim p.1 p.2)]) := by
      simp [Sim2.runPicks]
    rw [step]
    by_cases hl : (rs.lookup p.1).isSome = true
    · rw [if_pos hl]
      exact Sim2.runPicks_keys_nodup sim ps rs h
    · rw [if_neg hl]
      refine Sim2.runPicks_keys_nodup sim ps _ ?_
      have hnm : p.1 ∉ rs.map Prod.fst := fun hc =>
        hl ((Sim2.lookup_isSome_iff rs p.1).2 hc)
      simp [List.nodup_append, h, hnm]

lemma Sim2.runPicks_length_nil (sim : String → Sim2.SExp → Sim2.SResult)
    (picked : List (String × Sim2.SExp)) :
    (Sim2.runPicks sim picked []).length = ((picked.map Prod.fst).dedup).length := by
  have hn : ((Sim2.runPicks sim picked []).map Prod.fst).Nodup :=
    Sim2.runPicks_keys_nodup sim picked [] (by simp)
  have hm : ∀ a, a ∈ (Sim2.runPicks sim picked []).map Prod.fst ↔ a ∈ picked.map Prod.fst :=
    fun a => by simpa using Sim2.runPicks_keys_mem sim picked [] a
  calc (Sim2.runPicks sim picked []).length
      = ((Sim2.runPicks sim picked []).map Prod.fst).length := (List.length_map _ _).symm
    _ = ((Sim2.runPicks sim picked []).map Prod.fst).toFinset.card :=
        (List.toFinset_card_of_nodup hn).symm
    _ = (picked.map Prod.fst).toFinset.card := by
        congr 1
        ext a
        simp only [List.mem_toFinset]
        exact hm a
    _ = ((picked.map Prod.fst).dedup).length := by
        rw [List.card_toFinset]

/-- Synthesizer stub used for the concrete C3 counterexample; the claim's
count property is independent of the synthesized verdicts. -/
def sim0 : String → Sim2.SExp → Sim2.SResult := fun _ _ => { verdict := Sim2.Verdict.weak }

/-- Session state with the same assumption scheduled twice in round 1 of
`app_sim2.py` (two different experiments, 2 + 4 = 6 of 8 tokens). -/
def st0 : Sim2.Sim2State :=
  { r1 := { picked := [("A1", Sim2.SExp.landingPage), ("A1", Sim2.SExp.preOrder)],
            results := [], statuses := [], tokens := 6 },
    r2 := { picked := [], results := [], statuses := [], tokens := 0 },
    r3 := { picked := [], results := [], statuses := [], tokens := 0 },
    ranking_ids := ["A1"], assumption_status := [], score := none }

/-- Counterexample for C3: in `app_sim2.py`, results are keyed by assumption
id, so running a round whose portfolio schedules the same assumption in two
different entries produces only one result, not one per entry. -/
theorem duplicate_assumption_entries_yield_one_result :
    (Sim2.roundOf st0 Sim2.RKey.r1).picked.length = 2 ∧
    (Sim2.roundOf (Sim2.run_round sim0 st0 Sim2.RKey.r1) Sim2.RKey.r1).results.length = 1 := by
  exact ⟨rfl, rfl⟩

/-- C3 (amended): `app.py`'s `run_round` produces exactly one result per
scheduled portfolio entry, duplicates included; `app_sim2.py`'s `run_round`
stores results keyed by assumption id, producing (when the round starts with
no stored results) exactly one result per distinct assumption id among the
round's entries — every scheduled assumption gets a result, but a duplicate
assumption in two entries yields a single shared result. -/
theorem one_result_per_entry_or_per_assumption :
    (∀ (us : Nat → ℚ × ℚ) (s : App.AppState) (r : App.Rnd),
      (App.resultsOf (App.runRound us s r) r).length = (App.portfolioOf s r).length) ∧
    (∀ (sim : String → Sim2.SExp → Sim2.SResult) (s : Sim2.Sim2State) (k : Sim2.RKey),
      (Sim2.roundOf s k).results = [] →
      (Sim2.roundOf (Sim2.run_round sim s k) k).results.length =
          (((Sim2.roundOf s k).picked.map Prod.fst).dedup).length ∧
        ∀ a, ((Sim2.roundOf (Sim2.run_round sim s k) k).results.lookup a).isSome = true ↔
          a ∈ (Sim2.roundOf s k).picked.map Prod.fst) := by
  constructor
  · exact App.resultsOf_runRound_length
  · intro sim s k h
    have hr : Sim2.roundOf (Sim2.run_round sim s k) k =
        { Sim2.roundOf s k with
            results := Sim2.runPicks sim (Sim2.roundOf s k).picked (Sim2.roundOf s k).results } := by
      unfold Sim2.run_round
      exact Sim2.roundOf_setRound s k _
    rw [hr, h]
    refine ⟨Sim2.runPicks_length_nil sim _, fun a => ?_⟩
    rw [Sim2.lookup_isSome_iff]
    simpa using Sim2.runPicks_keys_mem sim (Sim2.roundOf s k).picked [] a

/-- Witness for C3's amended statement at a concrete state: from empty
results, the duplicate-assumption round of `st0` yields one stored result
and a result exists exactly for the scheduled assumption id. -/
theorem one_result_per_entry_or_per_assumption_witness :
    (Sim2.roundOf (Sim2.run_round sim0 st0 Sim2.RKey.r1) Sim2.RKey.r1).results.length =
      ((((Sim2.roundOf st0 Sim2.RKey.r1).picked.map Prod.fst).dedup)).length :=
  ((one_result_per_entry_or_per_assumption.2 sim0 st0 Sim2.RKey.r1) rfl).1

/-- Counterexample for C10: `app.py` has no boundary rejection for unknown
ids — `get_assumption` fabricates a default desirability assumption for an
id absent from the catalog, and `simulate_result` happily synthesizes a full
result for it (here with draws 0/0: a strong success at the default medium
risk). -/
theorem unknown_id_reaches_synthesizer :
    "ZZ" ∉ App.homeAssumptions.map (fun a => a.id) ∧
    App.get_assumption App.homeAssumptions "ZZ" =
      { id := "ZZ", text := "ZZ", type := App.AType.desirability } ∧
    (App.simulate_result App.homeAssumptions App.homeTruth "ZZ" App.ExpKey.landing 0 0).assumption_type =
      App.AType.desirability ∧
    (App.simulate_result App.homeAssumptions App.homeTruth "ZZ" App.ExpKey.landing 0 0).success =
      true ∧
    (App.simulate_result App.homeAssumptions App.homeTruth "ZZ" App.ExpKey.landing 0 0).signal =
      App.Signal.strong := by
  have hg : App.get_assumption App.homeAssumptions "ZZ" =
      { id := "ZZ", text := "ZZ", type := App.AType.desirability } := by decide
  have hr : App.riskOf App.homeTruth "ZZ" = 2 := by decide
  refine ⟨by decide, hg, by decide, ?_, ?_⟩
  · simp only [App.simulate_result, hg, hr]
    norm_num [App.fitTypes, App.pSuccessApp, App.baseSuccess]
  · simp only [App.simulate_result, hg, hr]
    norm_num [App.fitTypes, App.pSuccessApp, App.baseSuccess]

/-- C10 (amended): `app.py` performs no `UnknownReference` rejection at any
boundary; for an assumption id outside the active catalog, `get_assumption`
returns the fabricated default `(aid, aid, desirability)`, the ground-truth
lookup defaults the risk to 2, and the synthesizer processes the id with
those defaults.  Unknown ids are kept out only because the UI constructs
every request from catalog ids. -/
theorem unknown_reference_fabricates_default
    (l : List App.Assumption) (gt : List (String × Nat)) (aid : String)
    (ek : App.ExpKey) (u1 u2 : ℚ)
    (hl : aid ∉ l.map (fun a => a.id)) (hg : aid ∉ gt.map Prod.fst) :
    App.get_assumption l aid = { id := aid, text := aid, type := App.AType.desirability } ∧
    App.riskOf gt aid = 2 ∧
    (App.simulate_result l gt aid ek u1 u2).assumption_type = App.AType.desirability := by
  have h1 : l.find? (fun a => a.id == aid) = none := by
    rw [List.find?_eq_none]
    intro x hx
    simp only [beq_iff_eq]
    intro hc
    exact hl (List.mem_map.2 ⟨x, hx, hc⟩)
  have h2 : gt.find? (fun p => p.1 == aid) = none := by
    rw [List.find?_eq_none]
    intro x hx
    simp only [beq_iff_eq]
    intro hc
    exact hg (List.mem_map.2 ⟨x, hx, hc⟩)
  have hga : App.get_assumption l aid =
      { id := aid, text := aid, type := App.AType.desirability } := by
    unfold App.get_assumption
    rw [h1]
  refine ⟨hga, ?_, ?_⟩
  · unfold App.riskOf
    rw [h2]
  · simp only [App.simulate_result, hga]

/-- Witness for C10's amended statement at the concrete unknown id used in
the counterexample. -/
theorem unknown_reference_fabricates_default_witness :
    App.get_assumption App.homeAssumptions "Z9" =
      { id := "Z9", text := "Z9", type := App.AType.desirability } ∧
    App.riskOf App.homeTruth "Z9" = 2 :=
  ⟨(unknown_reference_fabricates_default App.homeAssumptions App.homeTruth "Z9"
      App.ExpKey.landing 0 0 (by decide) (by decide)).1,
   (unknown_reference_fabricates_default App.homeAssumptions App.homeTruth "Z9"
      App.ExpKey.landing 0 0 (by decide) (by decide)).2.1⟩

/-- C6: the scoring engine is a pure, idempotent function of the accumulated
history.  In `app_sim2.py`, `compute_scoring` writes only the score object:
running it twice equals running it once, and the history slices (rounds with
their picks, results, statuses and token counters, the ranking, the statuses
map) are untouched.  In `app.py`, `compute_score` returns the same output on
any state that differs only in the non-history fields it never reads
(token counters, scheduled portfolios, validation progress) and mutates
nothing, being a plain function of the state. -/
theorem scoring_pure_and_idempotent :
    (∀ (amap : String → Sim2.SAssumption) (s : Sim2.Sim2State),
      Sim2.compute_scoring amap (Sim2.compute_scoring amap s) = Sim2.compute_scoring amap s ∧
      (Sim2.compute_scoring amap s).r1 = s.r1 ∧
      (Sim2.compute_scoring amap s).r2 = s.r2 ∧
      (Sim2.compute_scoring amap s).r3 = s.r3 ∧
      (Sim2.compute_scoring amap s).ranking_ids = s.ranking_ids ∧
      (Sim2.compute_scoring amap s).assumption_status = s.assumption_status) ∧
    (∀ (s : App.AppState) (ts tt : Int) (p1 p2 p3 : List (String × App.ExpKey)) (v : App.VProg),
      App.compute_score
          { s with tokens_spent := ts, tokens_total := tt, portfolio1 := p1,
                   portfolio2 := p2, portfolio3 := p3, validation := v } =
        App.compute_score s) :=
  ⟨fun _ _ => ⟨rfl, rfl, rfl, rfl, rfl, rfl⟩, fun _ _ _ _ _ _ _ => rfl⟩

lemma App.basePoints_nonneg (d : Nat) : 0 ≤ App.basePoints d := by
  unfold App.basePoints
  split_ifs <;> norm_num

lemma App.basePoints_le (d : Nat) : App.basePoints d ≤ 3 := by
  unfold App.basePoints
  split_ifs <;> norm_num

lemma App.weight_for_pos_pos (i : Nat) : 0 < App.weight_for_pos i := by
  unfold App.weight_for_pos
  split_ifs <;> norm_num

lemma App.rpLoop_bounds (tr : String → Nat) :
    ∀ (l : List String) (i : Nat),
      0 ≤ (App.rpLoop tr i l).1 ∧ (App.rpLoop tr i l).1 ≤ (App.rpLoop tr i l).2
  | [], i => by simp [App.rpLoop]
  | aid :: rest, i => by
    obtain ⟨ih1, ih2⟩ := App.rpLoop_bounds tr rest (i + 1)
    have h1 : 0 ≤ App.basePoints ((i : Int) - (tr aid : Int)).natAbs * App.weight_for_pos i :=
      mul_nonneg (App.basePoints_nonneg _) (App.weight_for_pos_pos i).le
    have h2 : App.basePoints ((i : Int) - (tr aid : Int)).natAbs * App.weight_for_pos i ≤
        3 * App.weight_for_pos i :=
      mul_le_mul_of_nonneg_right (App.basePoints_le _) (App.weight_for_pos_pos i).le
    simp only [App.rpLoop]
    exact ⟨by linarith, by linarith⟩

lemma App.risk_prioritization_score_bounds (s : App.AppState) :
    0 ≤ (App.risk_prioritization_score s).1 ∧ (App.risk_prioritization_score s).1 ≤ 25 := by
  unfold App.risk_prioritization_score
  obtain ⟨h1, h2⟩ :=
    App.rpLoop_bounds
      (App.truthRank s.ground_truth (s.ranked.map (fun a => a.id)).length)
      (s.ranked.map (fun a => a.id)) 1
  simp only
  split_ifs with h
  · have hq1 : 0 ≤ (App.rpLoop (App.truthRank s.ground_truth
        (s.ranked.map (fun a => a.id)).length) 1 (s.ranked.map (fun a => a.id))).1 /
        (App.rpLoop (App.truthRank s.ground_truth
        (s.ranked.map (fun a => a.id)).length) 1 (s.ranked.map (fun a => a.id))).2 :=
      div_nonneg h1 h.le
    have hq2 : (App.rpLoop (App.truthRank s.ground_truth
        (s.ranked.map (fun a => a.id)).length) 1 (s.ranked.map (fun a => a.id))).1 /
        (App.rpLoop (App.truthRank s.ground_truth
        (s.ranked.map (fun a => a.id)).length) 1 (s.ranked.map (fun a => a.id))).2 ≤ 1 :=
      (div_le_one h).2 h2
    constructor
    · exact App.pyRound_nonneg (by linarith)
    · exact App.pyRound_le (by push_cast; linarith)
  · norm_num

lemma App.exp_fit_score_bounds (s : App.AppState) :
    0 ≤ App.exp_fit_score s ∧ App.exp_fit_score s ≤ 25 := by
  unfold App.exp_fit_score
  simp only
  split_ifs with h
  · have hlen : 0 < ((App.flatResults s).length : ℚ) := by
      have := Nat.pos_of_ne_zero h
      exact_mod_cast this
    have hcount : (((App.flatResults s).countP
        (fun r => decide (r.assumption_type ∈ App.fitTypes r.experiment))) : ℚ) ≤
        ((App.flatResults s).length : ℚ) := by
      exact_mod_cast List.countP_le_length _
    have hq1 : (0 : ℚ) ≤ (((App.flatResults s).countP
        (fun r => decide (r.assumption_type ∈ App.fitTypes r.experiment))) : ℚ) /
        ((App.flatResults s).length : ℚ) := by positivity
    have hq2 : (((App.flatResults s).countP
        (fun r => decide (r.assumption_type ∈ App.fitTypes r.experiment))) : ℚ) /
        ((App.flatResults s).length : ℚ) ≤ 1 := (div_le_one hlen).2 hcount
    constructor
    · exact App.pyInt_nonneg (by linarith)
    · exact App.pyInt_le (by linarith) (by push_cast; linarith)
  · norm_num

lemma App.total_cost_nonneg (s : App.AppState)
    (h : ∀ r ∈ App.flatResults s, 0 ≤ r.cost) : 0 ≤ App.total_cost s := by
  refine List.sum_nonneg ?_
  intro x hx
  obtain ⟨r, hr, rfl⟩ := List.mem_map.1 hx
  exact h r hr

lemma App.resource_efficiency_score_bounds (s : App.AppState)
    (h : 0 ≤ App.total_cost s) :
    0 ≤ (App.resource_efficiency s).score ∧ (App.resource_efficiency s).score ≤ 25 := by
  unfold App.resource_efficiency
  split_ifs with hlp
  · norm_num
  · push_neg at hlp
    have ha : 0 ≤ (App.total_cost s : ℚ) / (App.learning_points s : ℚ) := by
      apply div_nonneg
      · exact_mod_cast h
      · exact_mod_cast hlp.le
    have hp0 : 0 ≤ min 100 (100 * App.TARGET_CPLP /
        ((App.total_cost s : ℚ) / (App.learning_points s : ℚ))) := by
      refine le_min (by norm_num) ?_
      apply div_nonneg
      · norm_num [App.TARGET_CPLP]
      · exact ha
    have hp1 : min 100 (100 * App.TARGET_CPLP /
        ((App.total_cost s : ℚ) / (App.learning_points s : ℚ))) ≤ 100 := min_le_left _ _
    constructor
    · exact App.pyRound_nonneg (by positivity)
    · exact App.pyRound_le (by push_cast; linarith)

lemma App.learn_score_bounds (s : App.AppState) :
    0 ≤ App.learn_score s ∧ App.learn_score s ≤ 15 := by
  unfold App.learn_score
  rw [App.resource_efficiency_learning_points]
  exact ⟨le_min (by norm_num) (App.learning_points_nonneg s), min_le_left _ _⟩

lemma App.qual_score_bounds (s : App.AppState) :
    0 ≤ App.qual_score s ∧ App.qual_score s ≤ 10 := by
  unfold App.qual_score
  split_ifs <;> norm_num

lemma Sim2.clarity_bounds (s : Sim2.Sim2State) :
    0 ≤ Sim2.clarity s ∧ Sim2.clarity s ≤ 1 := by
  unfold Sim2.clarity
  exact ⟨Sim2.le_clamp _ _ _, Sim2.clamp_le _ (by norm_num)⟩

lemma Sim2.prioritization_bounds (amap : String → Sim2.SAssumption) (s : Sim2.Sim2State) :
    0 ≤ Sim2.prioritization amap s ∧ Sim2.prioritization amap s ≤ 1 := by
  unfold Sim2.prioritization
  dsimp only
  split_ifs <;>
    first
      | exact ⟨Sim2.le_clamp _ _ _, Sim2.clamp_le _ (by norm_num)⟩
      | norm_num

lemma Sim2.fit_avg_bounds (amap : String → Sim2.SAssumption) (s : Sim2.Sim2State) :
    0 ≤ Sim2.fit_avg amap s ∧ Sim2.fit_avg amap s ≤ 1 := by
  unfold Sim2.fit_avg
  exact ⟨Sim2.le_clamp _ _ _, Sim2.clamp_le _ (by norm_num)⟩

lemma Sim2.efficiency_bounds (s : Sim2.Sim2State) :
    0 ≤ Sim2.efficiency s ∧ Sim2.efficiency s ≤ 1 := by
  unfold Sim2.efficiency
  exact ⟨Sim2.le_clamp _ _ _, Sim2.clamp_le _ (by norm_num)⟩

lemma Sim2.learn_bounds (s : Sim2.Sim2State) :
    0 ≤ Sim2.learn s ∧ Sim2.learn s ≤ 1 := by
  unfold Sim2.learn
  split_ifs <;> exact ⟨Sim2.le_clamp _ _ _, Sim2.clamp_le _ (by norm_num)⟩

lemma Sim2.component_score_bounds {x : ℚ} (h0 : 0 ≤ x) (h1 : x ≤ 1) :
    0 ≤ App.pyInt (100 * x) ∧ App.pyInt (100 * x) ≤ 100 :=
  ⟨App.pyInt_nonneg (by linarith), App.pyInt_le (by linarith) (by push_cast; linarith)⟩

lemma Sim2.weighted_total_bounds {c p f e l : Int}
    (hc : 0 ≤ c ∧ c ≤ 100) (hp : 0 ≤ p ∧ p ≤ 100) (hf : 0 ≤ f ∧ f ≤ 100)
    (he : 0 ≤ e ∧ e ≤ 100) (hl : 0 ≤ l ∧ l ≤ 100) :
    0 ≤ App.pyInt (0.30 * (c : ℚ) + 0.25 * (p : ℚ) + 0.25 * (f : ℚ) +
        0.10 * (e : ℚ) + 0.10 * (l : ℚ)) ∧
      App.pyInt (0.30 * (c : ℚ) + 0.25 * (p : ℚ) + 0.25 * (f : ℚ) +
        0.10 * (e : ℚ) + 0.10 * (l : ℚ)) ≤ 100 := by
  have hc2 : (0 : ℚ) ≤ (c : ℚ) ∧ (c : ℚ) ≤ 100 := by exact_mod_cast hc
  have hp2 : (0 : ℚ) ≤ (p : ℚ) ∧ (p : ℚ) ≤ 100 := by exact_mod_cast hp
  have hf2 : (0 : ℚ) ≤ (f : ℚ) ∧ (f : ℚ) ≤ 100 := by exact_mod_cast hf
  have he2 : (0 : ℚ) ≤ (e : ℚ) ∧ (e : ℚ) ≤ 100 := by exact_mod_cast he
  have hl2 : (0 : ℚ) ≤ (l : ℚ) ∧ (l : ℚ) ≤ 100 := by exact_mod_cast hl
  obtain ⟨hc0, hc1⟩ := hc2
  obtain ⟨hp0, hp1⟩ := hp2
  obtain ⟨hf0, hf1⟩ := hf2
  obtain ⟨he0, he1⟩ := he2
  obtain ⟨hl0, hl1⟩ := hl2
  constructor
  · exact App.pyInt_nonneg (by linarith)
  · exact App.pyInt_le (by linarith) (by push_cast; linarith)

/-- C5: the total score is always within [0,100] and every category
sub-score is within its documented maximum — in `app.py` (given the
reachability invariant that every stored result's cost is nonnegative, as
all catalog costs are): Risk Prioritization and Experiment Fit and Resource
Efficiency at most 25, Learning Outcome at most 15, Assumption Quality at
most 10; in `app_sim2.py` every weighted component lies in [0,100]. -/
theorem scores_within_documented_bounds :
    (∀ s : App.AppState, (∀ r0 ∈ App.flatResults s, 0 ≤ r0.cost) →
      (0 ≤ (App.compute_score s).total ∧ (App.compute_score s).total ≤ 100) ∧
      (0 ≤ (App.compute_score s).breakdown.risk_prioritization ∧
        (App.compute_score s).breakdown.risk_prioritization ≤ 25) ∧
      (0 ≤ (App.compute_score s).breakdown.experiment_fit ∧
        (App.compute_score s).breakdown.experiment_fit ≤ 25) ∧
      (0 ≤ (App.compute_score s).breakdown.resource_efficiency ∧
        (App.compute_score s).breakdown.resource_efficiency ≤ 25) ∧
      (0 ≤ (App.compute_score s).breakdown.learning_outcome ∧
        (App.compute_score s).breakdown.learning_outcome ≤ 15) ∧
      (0 ≤ (App.compute_score s).breakdown.assumption_quality ∧
        (App.compute_score s).breakdown.assumption_quality ≤ 10)) ∧
    (∀ (amap : String → Sim2.SAssumption) (s : Sim2.Sim2State),
      (0 ≤ (Sim2.scoreObj amap s).total ∧ (Sim2.scoreObj amap s).total ≤ 100) ∧
      (0 ≤ (Sim2.scoreObj amap s).clarity ∧ (Sim2.scoreObj amap s).clarity ≤ 100) ∧
      (0 ≤ (Sim2.scoreObj amap s).prioritization ∧
        (Sim2.scoreObj amap s).prioritization ≤ 100) ∧
      (0 ≤ (Sim2.scoreObj amap s).fit ∧ (Sim2.scoreObj amap s).fit ≤ 100) ∧
      (0 ≤ (Sim2.scoreObj amap s).efficiency ∧ (Sim2.scoreObj amap s).efficiency ≤ 100) ∧
      (0 ≤ (Sim2.scoreObj amap s).learning ∧ (Sim2.scoreObj amap s).learning ≤ 100)) := by
  constructor
  · intro s h
    obtain ⟨hrp0, hrp1⟩ := App.risk_prioritization_score_bounds s
    obtain ⟨hef0, hef1⟩ := App.exp_fit_score_bounds s
    obtain ⟨hee0, hee1⟩ :=
      App.resource_efficiency_score_bounds s (App.total_cost_nonneg s h)
    obtain ⟨hl0, hl1⟩ := App.learn_score_bounds s
    obtain ⟨hq0, hq1⟩ := App.qual_score_bounds s
    simp only [App.compute_score]
    refine ⟨⟨?_, ?_⟩, ⟨hrp0, hrp1⟩, ⟨hef0, hef1⟩, ⟨hee0, hee1⟩, ⟨hl0, hl1⟩, ⟨hq0, hq1⟩⟩
    · exact le_min (by norm_num) (by linarith)
    · exact min_le_left _ _
  · intro amap s
    have hc := Sim2.component_score_bounds (Sim2.clarity_bounds s).1 (Sim2.clarity_bounds s).2
    have hp := Sim2.component_score_bounds (Sim2.prioritization_bounds amap s).1
      (Sim2.prioritization_bounds amap s).2
    have hf := Sim2.component_score_bounds (Sim2.fit_avg_bounds amap s).1
      (Sim2.fit_avg_bounds amap s).2
    have he := Sim2.component_score_bounds (Sim2.efficiency_bounds s).1
      (Sim2.efficiency_bounds s).2
    have hl := Sim2.component_score_bounds (Sim2.learn_bounds s).1 (Sim2.learn_bounds s).2
    have ht := Sim2.weighted_total_bounds hc hp hf he hl
    simp only [Sim2.scoreObj]
    exact ⟨ht, hc, hp, hf, he, hl⟩

/-- Witness for C5 at the fresh `home_comfort` session, whose (empty) result
list trivially satisfies the nonnegative-cost invariant. -/
theorem scores_within_documented_bounds_witness :
    0 ≤ (App.compute_score
        (App.initState App.homeAssumptions App.homeAssumptions App.homeTruth)).total ∧
    (App.compute_score
        (App.initState App.homeAssumptions App.homeAssumptions App.homeTruth)).total ≤ 100 :=
  (scores_within_documented_bounds.1
      (App.initState App.homeAssumptions App.homeAssumptions App.homeTruth)
      (by intro r0 hr0; simp [App.flatResults, App.initState] at hr0)).1
